import Mathlib

/-!
Verification of the dynamic client registration handler
(`src/server/auth/handlers/register.ts`).

JavaScript objects are modelled as association lists from string keys to a
small universe of JavaScript values (`JsValue`).  Property access returns
`undefined` for a missing key, as in JavaScript.  Object spread followed by
literal keys (`{...m, k: v, ...}`) is modelled by prepending the literal
bindings, with property access finding the first binding for a key, so the
literal keys override the spread ones.

The external collaborators are modelled as parameters:
  * the metadata validator `OAuthClientMetadataSchema.parse` becomes a
    function `parse : JsValue → Except String Obj` (an exception carrying the
    stringified failure detail, as `String(error)` does);
  * the store method `registerClient` becomes a function
    `Obj → Except String Obj` (`Except.error` is a rejected promise);
  * the draws `crypto.randomUUID()`, `crypto.randomBytes(32).toString(hex)`
    and `Math.floor(Date.now() / 1000)` become explicit arguments
    `clientId`, `secretHex` and `now` of the embedded `register`.

`register` additionally returns the list of arguments the store method was
called with, so that claims about the store never being invoked, or being
invoked exactly once with the issued record, can be stated.
-/

/-- A JavaScript value, as needed by the registration handler.  The handler
only ever inspects string-valued properties (`token_endpoint_auth_method`) and
key presence, so arrays of strings (for `redirect_uris`) suffice for the
array case. -/
inductive JsValue where
  | str : String → JsValue
  | num : Int → JsValue
  | bool : Bool → JsValue
  | undef : JsValue
  | arr : List String → JsValue
deriving DecidableEq

/-- A JavaScript object: an association list of properties.  Property access
finds the first binding of a key. -/
abbrev Obj := List (String × JsValue)

/-- Property access `o[k]` returning `Option`: the first binding of `k`. -/
def getField (o : Obj) (k : String) : Option JsValue :=
  match o with
  | [] => none
  | (k2, v) :: rest => if k = k2 then some v else getField rest k

/-- JavaScript property access `o.k`: `undefined` when the key is missing. -/
def getJs (o : Obj) (k : String) : JsValue :=
  (getField o k).getD JsValue.undef

/-- The JavaScript `"k" in o` operator: the key is present, even when its
value is `undefined`. -/
def hasField (o : Obj) (k : String) : Bool :=
  (getField o k).isSome

/-- A property is *defined* when it is present with a value other than
`undefined` (such a property survives JSON serialization). -/
def fieldDefined (o : Obj) (k : String) : Bool :=
  match getField o k with
  | some v => v != JsValue.undef
  | none => false

/-- Object spread followed by literal keys, `{...base, k1: v1, ..., kn: vn}`:
the literal bindings `updates` override same-named properties of `base`. -/
def objExt (base : Obj) (updates : Obj) : Obj :=
  updates ++ base

/-- The module constant `DEFAULT_CLIENT_SECRET_EXPIRY_SECONDS`, 30 days in seconds. -/
def DEFAULT_CLIENT_SECRET_EXPIRY_SECONDS : Int := 30 * 24 * 60 * 60

/-- The client-information object built by `register` from validated metadata
(source lines 43–55):

```
const clientId = crypto.randomUUID();
const clientSecret = clientMetadata.token_endpoint_auth_method !== none
  ? crypto.randomBytes(32).toString(hex)
  : undefined;
const clientIdIssuedAt = Math.floor(Date.now() / 1000);
let clientInfo = {
  ...clientMetadata,
  client_id: clientId,
  client_secret: clientSecret,
  client_id_issued_at: clientIdIssuedAt,
  client_secret_expires_at:
    clientSecretExpirySeconds > 0 ? clientIdIssuedAt + clientSecretExpirySeconds : 0
};
```
-/
def issuedRecord (clientSecretExpirySeconds : Int) (clientId secretHex : String)
    (now : Int) (clientMetadata : Obj) : Obj :=
  objExt clientMetadata
    [("client_id", JsValue.str clientId),
     ("client_secret",
       if getJs clientMetadata "token_endpoint_auth_method" ≠ JsValue.str "none"
       then JsValue.str secretHex else JsValue.undef),
     ("client_id_issued_at", JsValue.num now),
     ("client_secret_expires_at",
       JsValue.num (if clientSecretExpirySeconds > 0
                    then now + clientSecretExpirySeconds else 0))]

/-- The inner `register` function (source lines 36–59).  Returns the settled
promise (`Except.error` is a rejection, raised by the store) together with the
list of arguments passed to `clientsStore.registerClient`. -/
def register (parse : JsValue → Except String Obj)
    (registerClient : Obj → Except String Obj)
    (clientSecretExpirySeconds : Int)
    (clientId secretHex : String) (now : Int)
    (requestBody : JsValue) : Except String Obj × List Obj :=
  match parse requestBody with
  | .error e =>
      (.ok [("error", JsValue.str "invalid_client_metadata"),
            ("error_description", JsValue.str e)], [])
  | .ok clientMetadata =>
      let clientInfo := issuedRecord clientSecretExpirySeconds clientId secretHex
        now clientMetadata
      match registerClient clientInfo with
      | .ok info => (.ok info, [clientInfo])
      | .error e => (.error e, [clientInfo])

/-- The response the transport produces: a JSON body with a status code, or a
plain-text body with a status code. -/
inductive HttpResponse where
  | json : Nat → Obj → HttpResponse
  | text : Nat → String → HttpResponse
deriving DecidableEq

/-- The `router.post("/", ...)` callback (source lines 62–73): classify the
settled outcome of `register` and produce the response.  A resolved value is
reported 400 when it has an `error` property and 201 otherwise; a rejection is
reported as a bare 500 with the detail logged. -/
def handlePost (parse : JsValue → Except String Obj)
    (registerClient : Obj → Except String Obj)
    (clientSecretExpirySeconds : Int)
    (clientId secretHex : String) (now : Int)
    (requestBody : JsValue) : HttpResponse × List Obj :=
  match register parse registerClient clientSecretExpirySeconds clientId
      secretHex now requestBody with
  | (.ok result, calls) =>
      (if hasField result "error" then .json 400 result else .json 201 result,
       calls)
  | (.error _, calls) => (.text 500 "Internal Server Error", calls)

/-- The store interface (`OAuthRegisteredClientsStore`): `registerClient` is
an optional method, `none` when the store does not support registration. -/
structure OAuthRegisteredClientsStore where
  registerClient : Option (Obj → Except String Obj)

/-- Options record `ClientRegistrationHandlerOptions`: the store plus the optional
`clientSecretExpirySeconds` configuration. -/
structure ClientRegistrationHandlerOptions where
  clientsStore : OAuthRegisteredClientsStore
  clientSecretExpirySeconds : Option Int

/-- The per-request behaviour of the constructed handler: from the request side
random draws and time to the response and the store-call trace. -/
abbrev RequestHandler := String → String → Int → JsValue → HttpResponse × List Obj

/-- Constructor `clientRegistrationHandler` (source lines 23-76): throws at construction
when the store lacks `registerClient`, otherwise returns the router, whose
POST behaviour is `handlePost` with the resolved expiry configuration. -/
def clientRegistrationHandler (opts : ClientRegistrationHandlerOptions)
    (parse : JsValue → Except String Obj) : Except String RequestHandler :=
  match opts.clientsStore.registerClient with
  | none => .error "Client registration store does not support registering clients"
  | some registerClient =>
      .ok (fun clientId secretHex now requestBody =>
        handlePost parse registerClient
          (opts.clientSecretExpirySeconds.getD DEFAULT_CLIENT_SECRET_EXPIRY_SECONDS)
          clientId secretHex now requestBody)

/-! ## Basic lemmas about the embedding -/

theorem getField_cons_eq (k : String) (v : JsValue) (o : Obj) :
    getField ((k, v) :: o) k = some v := by
  simp [getField]

theorem getField_cons_ne (k k2 : String) (v : JsValue) (o : Obj) (h : k ≠ k2) :
    getField ((k2, v) :: o) k = getField o k := by
  simp [getField, h]

theorem getField_issuedRecord_client_id (L : Int) (c s : String) (n : Int)
    (m : Obj) :
    getField (issuedRecord L c s n m) "client_id" = some (JsValue.str c) := by
  simp [issuedRecord, objExt, getField]

theorem getField_issuedRecord_client_secret (L : Int) (c s : String) (n : Int)
    (m : Obj) :
    getField (issuedRecord L c s n m) "client_secret" =
      some (if getJs m "token_endpoint_auth_method" ≠ JsValue.str "none"
            then JsValue.str s else JsValue.undef) := by
  simp [issuedRecord, objExt, getField]

theorem getField_issuedRecord_issued_at (L : Int) (c s : String) (n : Int)
    (m : Obj) :
    getField (issuedRecord L c s n m) "client_id_issued_at" =
      some (JsValue.num n) := by
  simp [issuedRecord, objExt, getField]

theorem getField_issuedRecord_expires_at (L : Int) (c s : String) (n : Int)
    (m : Obj) :
    getField (issuedRecord L c s n m) "client_secret_expires_at" =
      some (JsValue.num (if L > 0 then n + L else 0)) := by
  simp [issuedRecord, objExt, getField]

theorem getField_issuedRecord_frame (L : Int) (c s : String) (n : Int)
    (m : Obj) (k : String) (h1 : k ≠ "client_id") (h2 : k ≠ "client_secret")
    (h3 : k ≠ "client_id_issued_at") (h4 : k ≠ "client_secret_expires_at") :
    getField (issuedRecord L c s n m) k = getField m k := by
  simp [issuedRecord, objExt, getField, h1, h2, h3, h4]

theorem register_parse_error_eq (parse : JsValue → Except String Obj)
    (registerClient : Obj → Except String Obj) (L : Int) (c s : String)
    (n : Int) (body : JsValue) (e : String)
    (hparse : parse body = .error e) :
    register parse registerClient L c s n body =
      (.ok [("error", JsValue.str "invalid_client_metadata"),
            ("error_description", JsValue.str e)], []) := by
  simp only [register, hparse]

theorem register_store_ok_eq (parse : JsValue → Except String Obj)
    (registerClient : Obj → Except String Obj) (L : Int) (c s : String)
    (n : Int) (body : JsValue) (m r : Obj)
    (hparse : parse body = .ok m)
    (hstore : registerClient (issuedRecord L c s n m) = .ok r) :
    register parse registerClient L c s n body =
      (.ok r, [issuedRecord L c s n m]) := by
  simp only [register, hparse, hstore]

theorem register_store_error_eq (parse : JsValue → Except String Obj)
    (registerClient : Obj → Except String Obj) (L : Int) (c s : String)
    (n : Int) (body : JsValue) (m : Obj) (e : String)
    (hparse : parse body = .ok m)
    (hstore : registerClient (issuedRecord L c s n m) = .error e) :
    register parse registerClient L c s n body =
      (.error e, [issuedRecord L c s n m]) := by
  simp only [register, hparse, hstore]

theorem register_parse_ok_calls (parse : JsValue → Except String Obj)
    (registerClient : Obj → Except String Obj) (L : Int) (c s : String)
    (n : Int) (body : JsValue) (m : Obj)
    (hparse : parse body = .ok m) :
    (register parse registerClient L c s n body).2 =
      [issuedRecord L c s n m] := by
  cases hstore : registerClient (issuedRecord L c s n m) with
  | ok r => rw [register_store_ok_eq parse registerClient L c s n body m r hparse hstore]
  | error e => rw [register_store_error_eq parse registerClient L c s n body m e hparse hstore]

/-! ## Concrete sample collaborators for closed instances -/

/-- A validated metadata sample requesting a confidential method. -/
def sampleMetadata : Obj :=
  [("redirect_uris", JsValue.arr ["https://example.com/cb"]),
   ("token_endpoint_auth_method", JsValue.str "client_secret_post")]

/-- A validated metadata sample declaring the public method none. -/
def noneMetadata : Obj :=
  [("token_endpoint_auth_method", JsValue.str "none"),
   ("redirect_uris", JsValue.arr ["https://example.com/cb"])]

/-- A validator run that accepts, returning `sampleMetadata`. -/
def parseOk : JsValue → Except String Obj := fun _ => .ok sampleMetadata

/-- A validator run that accepts, returning `noneMetadata`. -/
def noneParse : JsValue → Except String Obj := fun _ => .ok noneMetadata

/-- A validator run that rejects with a failure detail. -/
def failParse : JsValue → Except String Obj :=
  fun _ => .error "ZodError: redirect_uris required"

/-- A store whose registerClient persists the record unchanged. -/
def idStore : Obj → Except String Obj := fun o => .ok o

/-- A store whose registerClient rejects. -/
def failStore : Obj → Except String Obj := fun _ => .error "db down"

/-- A store whose registerClient resolves with a record carrying an `error`
property. -/
def errStore : Obj → Except String Obj :=
  fun _ => .ok [("error", JsValue.str "store_conflict")]

/-! ## The claims -/

/-- C1: for every validated metadata and configured lifetime `L`, the record
built by `register` (the one it hands to the store) has
`client_id_issued_at = now`, and if `L > 0` its `client_secret_expires_at`
equals `client_id_issued_at + L`, while if `L = 0` it equals `0` regardless
of the issuance time. -/
theorem register_secret_expiry_policy
    (parse : JsValue → Except String Obj)
    (registerClient : Obj → Except String Obj) (L : Int) (c s : String)
    (n : Int) (body : JsValue) (m : Obj)
    (hparse : parse body = .ok m) :
    (register parse registerClient L c s n body).2 = [issuedRecord L c s n m] ∧
    getJs (issuedRecord L c s n m) "client_id_issued_at" = JsValue.num n ∧
    (L > 0 → getJs (issuedRecord L c s n m) "client_secret_expires_at" =
      JsValue.num (n + L)) ∧
    (L = 0 → getJs (issuedRecord L c s n m) "client_secret_expires_at" =
      JsValue.num 0) := by
  refine ⟨register_parse_ok_calls _ _ _ _ _ _ _ _ hparse, ?_, ?_, ?_⟩
  · simp [getJs, getField_issuedRecord_issued_at]
  · intro hL
    simp [getJs, getField_issuedRecord_expires_at, hL]
  · intro hL
    subst hL
    simp [getJs, getField_issuedRecord_expires_at]

/-- Witness for C1: concrete registration with lifetime 2592000 at issuance
time 1700000000 expires at 1702592000, and with lifetime 0 it expires at 0. -/
theorem register_secret_expiry_policy_witness :
    (register parseOk idStore 2592000 "id-1" "sec-1" 1700000000
        (JsValue.str "b")).2 =
      [issuedRecord 2592000 "id-1" "sec-1" 1700000000 sampleMetadata] ∧
    getJs (issuedRecord 2592000 "id-1" "sec-1" 1700000000 sampleMetadata)
      "client_secret_expires_at" = JsValue.num 1702592000 ∧
    getJs (issuedRecord 0 "id-1" "sec-1" 1700000000 sampleMetadata)
      "client_secret_expires_at" = JsValue.num 0 := by
  have h := register_secret_expiry_policy parseOk idStore 2592000 "id-1"
    "sec-1" 1700000000 (JsValue.str "b") sampleMetadata rfl
  have h0 := register_secret_expiry_policy parseOk idStore 0 "id-1"
    "sec-1" 1700000000 (JsValue.str "b") sampleMetadata rfl
  exact ⟨h.1, (h.2.2.1 (by decide)).trans (by decide), h0.2.2.2 rfl⟩

/-- C2: for every validated metadata, the record built by `register` has a
defined `client_secret` if and only if the metadata declares a
`token_endpoint_auth_method` other than the sentinel `none`. -/
theorem register_secret_iff_auth_method
    (parse : JsValue → Except String Obj)
    (registerClient : Obj → Except String Obj) (L : Int) (c s : String)
    (n : Int) (body : JsValue) (m : Obj)
    (hparse : parse body = .ok m) :
    (register parse registerClient L c s n body).2 = [issuedRecord L c s n m] ∧
    (fieldDefined (issuedRecord L c s n m) "client_secret" = true ↔
      getJs m "token_endpoint_auth_method" ≠ JsValue.str "none") := by
  refine ⟨register_parse_ok_calls _ _ _ _ _ _ _ _ hparse, ?_⟩
  by_cases h : getJs m "token_endpoint_auth_method" = JsValue.str "none"
  · simp [fieldDefined, getField_issuedRecord_client_secret, h]
  · simp [fieldDefined, getField_issuedRecord_client_secret, h]

/-- Witness for C2: with the confidential sample metadata the secret is
defined, and with the none sample metadata it is not. -/
theorem register_secret_iff_auth_method_witness :
    fieldDefined (issuedRecord 2592000 "id-1" "sec-1" 1700000000
      sampleMetadata) "client_secret" = true ∧
    ¬ fieldDefined (issuedRecord 2592000 "id-1" "sec-1" 1700000000
      noneMetadata) "client_secret" = true := by
  have h1 := (register_secret_iff_auth_method parseOk idStore 2592000 "id-1"
    "sec-1" 1700000000 (JsValue.str "b") sampleMetadata rfl).2
  have h2 := (register_secret_iff_auth_method noneParse idStore 2592000 "id-1"
    "sec-1" 1700000000 (JsValue.str "b") noneMetadata rfl).2
  refine ⟨h1.mpr (by decide), fun hd => (h2.mp hd) (by decide)⟩

/-- C3 counterexample: with metadata declaring auth method none and the
default 30-day lifetime, at issuance time 1700000000 the record built by
`register` indeed has no defined `client_secret`, but its
`client_secret_expires_at` property is present and equals 1702592000, not
absent and not 0 — the expiry is computed from the configured lifetime even
when no secret is issued. -/
theorem register_none_default_expiry_counterexample :
    (register noneParse idStore DEFAULT_CLIENT_SECRET_EXPIRY_SECONDS "id-1"
        "sec-1" 1700000000 (JsValue.str "b")).2 =
      [issuedRecord DEFAULT_CLIENT_SECRET_EXPIRY_SECONDS "id-1" "sec-1"
        1700000000 noneMetadata] ∧
    fieldDefined (issuedRecord DEFAULT_CLIENT_SECRET_EXPIRY_SECONDS "id-1"
      "sec-1" 1700000000 noneMetadata) "client_secret" = false ∧
    hasField (issuedRecord DEFAULT_CLIENT_SECRET_EXPIRY_SECONDS "id-1" "sec-1"
      1700000000 noneMetadata) "client_secret_expires_at" = true ∧
    getJs (issuedRecord DEFAULT_CLIENT_SECRET_EXPIRY_SECONDS "id-1" "sec-1"
      1700000000 noneMetadata) "client_secret_expires_at" =
        JsValue.num 1702592000 ∧
    getJs (issuedRecord DEFAULT_CLIENT_SECRET_EXPIRY_SECONDS "id-1" "sec-1"
      1700000000 noneMetadata) "client_secret_expires_at" ≠ JsValue.num 0 := by
  decide

/-- C3 amended: for every validated metadata whose
`token_endpoint_auth_method` equals none, the record built by `register` has
no defined `client_secret`, but its `client_secret_expires_at` property is
always present and follows the configured lifetime policy regardless of
whether a secret was issued: `now + L` when `L > 0` (so nonzero under the
default configuration), and `0` only when `L ≤ 0`. -/
theorem register_none_secret_absent_expiry_unconditional
    (parse : JsValue → Except String Obj)
    (registerClient : Obj → Except String Obj) (L : Int) (c s : String)
    (n : Int) (body : JsValue) (m : Obj)
    (hparse : parse body = .ok m)
    (hnone : getJs m "token_endpoint_auth_method" = JsValue.str "none") :
    (register parse registerClient L c s n body).2 = [issuedRecord L c s n m] ∧
    fieldDefined (issuedRecord L c s n m) "client_secret" = false ∧
    hasField (issuedRecord L c s n m) "client_secret_expires_at" = true ∧
    getJs (issuedRecord L c s n m) "client_secret_expires_at" =
      JsValue.num (if L > 0 then n + L else 0) := by
  refine ⟨register_parse_ok_calls _ _ _ _ _ _ _ _ hparse, ?_, ?_, ?_⟩
  · simp [fieldDefined, getField_issuedRecord_client_secret, hnone]
  · simp [hasField, getField_issuedRecord_expires_at]
  · simp [getJs, getField_issuedRecord_expires_at]

/-- Witness for the amended C3, at the default lifetime. -/
theorem register_none_secret_absent_expiry_unconditional_witness :
    fieldDefined (issuedRecord DEFAULT_CLIENT_SECRET_EXPIRY_SECONDS "id-2"
      "sec-2" 1700000000 noneMetadata) "client_secret" = false ∧
    getJs (issuedRecord DEFAULT_CLIENT_SECRET_EXPIRY_SECONDS "id-2" "sec-2"
      1700000000 noneMetadata) "client_secret_expires_at" =
        JsValue.num (if DEFAULT_CLIENT_SECRET_EXPIRY_SECONDS > 0
                     then 1700000000 + DEFAULT_CLIENT_SECRET_EXPIRY_SECONDS
                     else 0) := by
  have h := register_none_secret_absent_expiry_unconditional noneParse idStore
    DEFAULT_CLIENT_SECRET_EXPIRY_SECONDS "id-2" "sec-2" 1700000000
    (JsValue.str "b") noneMetadata rfl (by decide)
  exact ⟨h.2.1, h.2.2.2⟩

/-- C4: when validation fails with detail `e`, `register` returns the
structured error object whose `error` code is exactly
`invalid_client_metadata` and whose `error_description` is the stringified
validator failure detail, and the store registerClient capability is never
invoked (the call trace is empty). -/
theorem register_invalid_metadata
    (parse : JsValue → Except String Obj)
    (registerClient : Obj → Except String Obj) (L : Int) (c s : String)
    (n : Int) (body : JsValue) (e : String)
    (hparse : parse body = .error e) :
    (register parse registerClient L c s n body).2 = [] ∧
    (register parse registerClient L c s n body).1 =
      .ok [("error", JsValue.str "invalid_client_metadata"),
           ("error_description", JsValue.str e)] ∧
    ∀ r, (register parse registerClient L c s n body).1 = .ok r →
      getJs r "error" = JsValue.str "invalid_client_metadata" ∧
      getJs r "error_description" = JsValue.str e := by
  rw [register_parse_error_eq parse registerClient L c s n body e hparse]
  refine ⟨rfl, rfl, ?_⟩
  intro r hr
  injection hr with hr2
  subst hr2
  constructor
  · simp [getJs, getField]
  · simp [getJs, getField]

/-- Witness for C4: a rejecting validator yields the structured error and an
empty store-call trace. -/
theorem register_invalid_metadata_witness :
    (register failParse idStore 2592000 "id-1" "sec-1" 1700000000
        (JsValue.str "b")).2 = [] ∧
    (register failParse idStore 2592000 "id-1" "sec-1" 1700000000
        (JsValue.str "b")).1 =
      .ok [("error", JsValue.str "invalid_client_metadata"),
           ("error_description",
            JsValue.str "ZodError: redirect_uris required")] := by
  have h := register_invalid_metadata failParse idStore 2592000 "id-1" "sec-1"
    1700000000 (JsValue.str "b") "ZodError: redirect_uris required" rfl
  exact ⟨h.1, h.2.1⟩

/-- C5: constructing the registration handler fails immediately, with the
construction error and no handler value, exactly when the store lacks a
registerClient method; when the store supplies one, construction succeeds and
the returned per-request behaviour is `handlePost` with that method and the
resolved expiry configuration. -/
theorem clientRegistrationHandler_construction_guard
    (opts : ClientRegistrationHandlerOptions)
    (parse : JsValue → Except String Obj) :
    (opts.clientsStore.registerClient = none →
      clientRegistrationHandler opts parse =
        .error "Client registration store does not support registering clients") ∧
    (∀ f, opts.clientsStore.registerClient = some f →
      clientRegistrationHandler opts parse =
        .ok (fun clientId secretHex now requestBody =>
          handlePost parse f
            (opts.clientSecretExpirySeconds.getD
              DEFAULT_CLIENT_SECRET_EXPIRY_SECONDS)
            clientId secretHex now requestBody)) := by
  constructor
  · intro h
    simp only [clientRegistrationHandler, h]
  · intro f h
    simp only [clientRegistrationHandler, h]

/-- Witness for C5: a store without registerClient fails construction; a
store with registerClient constructs the handler. -/
theorem clientRegistrationHandler_construction_guard_witness :
    clientRegistrationHandler ⟨⟨none⟩, none⟩ parseOk =
      .error "Client registration store does not support registering clients" ∧
    clientRegistrationHandler ⟨⟨some idStore⟩, none⟩ parseOk =
      .ok (fun clientId secretHex now requestBody =>
        handlePost parseOk idStore
          ((none : Option Int).getD DEFAULT_CLIENT_SECRET_EXPIRY_SECONDS)
          clientId secretHex now requestBody) :=
  ⟨(clientRegistrationHandler_construction_guard ⟨⟨none⟩, none⟩ parseOk).1 rfl,
   (clientRegistrationHandler_construction_guard ⟨⟨some idStore⟩, none⟩
     parseOk).2 idStore rfl⟩

/-- C6: when the metadata validates but the store registerClient call fails,
`register` propagates the rejection unchanged (no structured body), and the
transport answers with the bare 500 Internal Server Error text — in
particular the response is never a JSON body, so no structured
RegistrationError reaches the caller. -/
theorem register_store_failure_internal
    (parse : JsValue → Except String Obj)
    (registerClient : Obj → Except String Obj) (L : Int) (c s : String)
    (n : Int) (body : JsValue) (m : Obj) (e : String)
    (hparse : parse body = .ok m)
    (hstore : registerClient (issuedRecord L c s n m) = .error e) :
    register parse registerClient L c s n body =
      (.error e, [issuedRecord L c s n m]) ∧
    handlePost parse registerClient L c s n body =
      (.text 500 "Internal Server Error", [issuedRecord L c s n m]) ∧
    ∀ status b, (handlePost parse registerClient L c s n body).1 ≠
      HttpResponse.json status b := by
  have hreg := register_store_error_eq parse registerClient L c s n body m e
    hparse hstore
  refine ⟨hreg, ?_, ?_⟩
  · simp [handlePost, hreg]
  · intro status b
    simp [handlePost, hreg]

/-- Witness for C6: a rejecting store yields the bare 500 response. -/
theorem register_store_failure_internal_witness :
    handlePost parseOk failStore 2592000 "id-1" "sec-1" 1700000000
        (JsValue.str "b") =
      (.text 500 "Internal Server Error",
       [issuedRecord 2592000 "id-1" "sec-1" 1700000000 sampleMetadata]) :=
  (register_store_failure_internal parseOk failStore 2592000 "id-1" "sec-1"
    1700000000 (JsValue.str "b") sampleMetadata "db down" rfl rfl).2.1

/-- C7: two registration calls that both pass validation build records with
distinct `client_id` values whenever the two draws from the random identifier
source are distinct, whatever the metadata (even identical). -/
theorem register_client_ids_distinct
    (p1 : JsValue → Except String Obj) (st1 : Obj → Except String Obj)
    (L1 : Int) (c1 s1 : String) (n1 : Int) (b1 : JsValue) (m1 : Obj)
    (p2 : JsValue → Except String Obj) (st2 : Obj → Except String Obj)
    (L2 : Int) (c2 s2 : String) (n2 : Int) (b2 : JsValue) (m2 : Obj)
    (h1 : p1 b1 = .ok m1) (h2 : p2 b2 = .ok m2) (hc : c1 ≠ c2) :
    (register p1 st1 L1 c1 s1 n1 b1).2 = [issuedRecord L1 c1 s1 n1 m1] ∧
    (register p2 st2 L2 c2 s2 n2 b2).2 = [issuedRecord L2 c2 s2 n2 m2] ∧
    getJs (issuedRecord L1 c1 s1 n1 m1) "client_id" ≠
      getJs (issuedRecord L2 c2 s2 n2 m2) "client_id" := by
  refine ⟨register_parse_ok_calls _ _ _ _ _ _ _ _ h1,
    register_parse_ok_calls _ _ _ _ _ _ _ _ h2, ?_⟩
  simp [getJs, getField_issuedRecord_client_id, hc]

/-- Witness for C7: identical metadata, distinct identifier draws, distinct
issued client ids. -/
theorem register_client_ids_distinct_witness :
    getJs (issuedRecord 2592000 "id-1" "sec-1" 1700000000 sampleMetadata)
        "client_id" ≠
      getJs (issuedRecord 2592000 "id-2" "sec-1" 1700000000 sampleMetadata)
        "client_id" :=
  (register_client_ids_distinct parseOk idStore 2592000 "id-1" "sec-1"
    1700000000 (JsValue.str "b") sampleMetadata parseOk idStore 2592000 "id-2"
    "sec-1" 1700000000 (JsValue.str "b") sampleMetadata rfl rfl
    (by decide)).2.2

/-- C8: the record `register` hands to the store keeps every metadata
property other than the four issued ones unchanged (same presence, same
value), the four issued properties carry exactly the issued values
(overriding any same-named metadata property), the store is called exactly
once with that record, and the store's return value is adopted verbatim as
the final result. -/
theorem register_frame_and_store_adoption
    (parse : JsValue → Except String Obj)
    (registerClient : Obj → Except String Obj) (L : Int) (c s : String)
    (n : Int) (body : JsValue) (m r : Obj) (k : String)
    (hparse : parse body = .ok m)
    (hstore : registerClient (issuedRecord L c s n m) = .ok r)
    (hk1 : k ≠ "client_id") (hk2 : k ≠ "client_secret")
    (hk3 : k ≠ "client_id_issued_at") (hk4 : k ≠ "client_secret_expires_at") :
    getField (issuedRecord L c s n m) k = getField m k ∧
    getField (issuedRecord L c s n m) "client_id" = some (JsValue.str c) ∧
    getField (issuedRecord L c s n m) "client_secret" =
      some (if getJs m "token_endpoint_auth_method" ≠ JsValue.str "none"
            then JsValue.str s else JsValue.undef) ∧
    getField (issuedRecord L c s n m) "client_id_issued_at" =
      some (JsValue.num n) ∧
    getField (issuedRecord L c s n m) "client_secret_expires_at" =
      some (JsValue.num (if L > 0 then n + L else 0)) ∧
    register parse registerClient L c s n body =
      (.ok r, [issuedRecord L c s n m]) :=
  ⟨getField_issuedRecord_frame L c s n m k hk1 hk2 hk3 hk4,
   getField_issuedRecord_client_id L c s n m,
   getField_issuedRecord_client_secret L c s n m,
   getField_issuedRecord_issued_at L c s n m,
   getField_issuedRecord_expires_at L c s n m,
   register_store_ok_eq parse registerClient L c s n body m r hparse hstore⟩

/-- Witness for C8: the `redirect_uris` property of the sample metadata
survives issuance unchanged, and the identity store's return value is the
final result. -/
theorem register_frame_and_store_adoption_witness :
    getField (issuedRecord 2592000 "id-1" "sec-1" 1700000000 sampleMetadata)
        "redirect_uris" = getField sampleMetadata "redirect_uris" ∧
    register parseOk idStore 2592000 "id-1" "sec-1" 1700000000
        (JsValue.str "b") =
      (.ok (issuedRecord 2592000 "id-1" "sec-1" 1700000000 sampleMetadata),
       [issuedRecord 2592000 "id-1" "sec-1" 1700000000 sampleMetadata]) := by
  have h := register_frame_and_store_adoption parseOk idStore 2592000 "id-1"
    "sec-1" 1700000000 (JsValue.str "b") sampleMetadata
    (issuedRecord 2592000 "id-1" "sec-1" 1700000000 sampleMetadata)
    "redirect_uris" rfl rfl (by decide) (by decide) (by decide) (by decide)
  exact ⟨h.1, h.2.2.2.2.2⟩

/-- C9: a negative configured lifetime is handled exactly like a zero one:
the issued record is the very same object as with lifetime 0, its
`client_secret_expires_at` is 0, and issuance still goes through (the store
receives the record). -/
theorem register_negative_expiry
    (parse : JsValue → Except String Obj)
    (registerClient : Obj → Except String Obj) (L : Int) (c s : String)
    (n : Int) (body : JsValue) (m : Obj)
    (hparse : parse body = .ok m) (hL : L < 0) :
    issuedRecord L c s n m = issuedRecord 0 c s n m ∧
    (register parse registerClient L c s n body).2 = [issuedRecord L c s n m] ∧
    getJs (issuedRecord L c s n m) "client_secret_expires_at" =
      JsValue.num 0 := by
  have hnot : ¬ (L > 0) := by omega
  refine ⟨?_, register_parse_ok_calls _ _ _ _ _ _ _ _ hparse, ?_⟩
  · simp [issuedRecord, hnot]
  · simp [getJs, getField_issuedRecord_expires_at, hnot]

/-- Witness for C9 at lifetime -5. -/
theorem register_negative_expiry_witness :
    issuedRecord (-5) "id-1" "sec-1" 1700000000 sampleMetadata =
      issuedRecord 0 "id-1" "sec-1" 1700000000 sampleMetadata ∧
    getJs (issuedRecord (-5) "id-1" "sec-1" 1700000000 sampleMetadata)
      "client_secret_expires_at" = JsValue.num 0 := by
  have h := register_negative_expiry parseOk idStore (-5) "id-1" "sec-1"
    1700000000 (JsValue.str "b") sampleMetadata rfl (by decide)
  exact ⟨h.1, h.2.2⟩

/-- C10: the transport classifies a resolved outcome of `register` solely by
the presence of an `error` property on the returned value: status 400 with
the value as body when the key is present, status 201 otherwise — so a store
that resolves with a record carrying an `error` property has its successful
registration reported as a bad request. -/
theorem handlePost_classifies_by_error_key
    (parse : JsValue → Except String Obj)
    (registerClient : Obj → Except String Obj) (L : Int) (c s : String)
    (n : Int) (body : JsValue) (r : Obj)
    (hreg : (register parse registerClient L c s n body).1 = Except.ok r) :
    (handlePost parse registerClient L c s n body).1 =
      if hasField r "error" then HttpResponse.json 400 r
      else HttpResponse.json 201 r := by
  rcases hfull : register parse registerClient L c s n body with ⟨o, calls⟩
  rw [hfull] at hreg
  cases o with
  | ok v =>
    simp only [Except.ok.injEq] at hreg
    subst hreg
    simp [handlePost, hfull]
  | error e => simp at hreg

/-- Witness for C10: a store that resolves with a record carrying an `error`
property makes the handler answer 400 even though persistence succeeded. -/
theorem handlePost_classifies_by_error_key_witness :
    (handlePost parseOk errStore 2592000 "id-1" "sec-1" 1700000000
        (JsValue.str "b")).1 =
      HttpResponse.json 400 [("error", JsValue.str "store_conflict")] := by
  have h := handlePost_classifies_by_error_key parseOk errStore 2592000 "id-1"
    "sec-1" 1700000000 (JsValue.str "b")
    [("error", JsValue.str "store_conflict")] rfl
  rw [h]
  decide
